import Mathlib

/-!
Shallow embedding of the numerically robust Voronoi predicates of the
boostvoronoi repository (a Rust port of boost::polygon::voronoi).

Conventions of the embedding:
* The input integer type `I1` (i32 in the instantiations used by the crate)
  and the widened type `I2` (i64) are both embedded as `Int`; claims that
  assume "no overflow in the widened type" therefore hold unconditionally
  in the embedding.
* `robust_cross_product_f` casts its exact widened-integer result to a
  float at the very end.  The cast maps a non-negative integer to a
  non-negative float and a positive one to a positive float, so the sign
  of the returned float is the sign of the integer computed before the
  cast; the embedding returns that integer.
* The big float type `F2` (f64) is embedded as `Rat` where the code's
  float values only flow into comparisons or record fields, and
  distinctly float-dependent sub-computations (ULP comparison,
  `RobustFpt` distance values, the lazy circle formation pass, float
  square roots) are taken as explicit function parameters, so theorems
  quantify over every possible behaviour of those sub-computations.
-/

namespace Boostvoronoi

/-- Source `geo::Point<I1>` with `I1` embedded as `Int`. -/
structure Point where
  x : Int
  y : Int
deriving DecidableEq, Repr

/-- Source `SiteEvent<I1, F1, I2, F2>`.  Modelled from the spec: the
`voronoi_siteevent` module itself is not among the provided sources (only
its test file is); spec §3 gives the fields — endpoint A (`point0_`),
endpoint B (`point1_`, equal to A for a point site), an `is_segment` flag,
an `is_inverse` flag and a `sorted_index` — and the test
`inverse_test_2` fixes the observable behaviour of `inverse()` and of the
accessors `x0/y0/x1/y1`. -/
structure SiteEvent where
  point0_ : Point
  point1_ : Point
  sorted_index_ : Nat
  is_segment_ : Bool
  is_inverse_ : Bool
deriving DecidableEq, Repr

def SiteEvent.point0 (s : SiteEvent) : Point := s.point0_

def SiteEvent.point1 (s : SiteEvent) : Point := s.point1_

def SiteEvent.x0 (s : SiteEvent) : Int := s.point0_.x

def SiteEvent.y0 (s : SiteEvent) : Int := s.point0_.y

def SiteEvent.x1 (s : SiteEvent) : Int := s.point1_.x

def SiteEvent.y1 (s : SiteEvent) : Int := s.point1_.y

/-- Source `site.x()` is the x coordinate of `point0`. -/
def SiteEvent.x (s : SiteEvent) : Int := s.x0

/-- Source `site.y()` is the y coordinate of `point0`. -/
def SiteEvent.y (s : SiteEvent) : Int := s.y0

def SiteEvent.is_segment (s : SiteEvent) : Bool := s.is_segment_

def SiteEvent.is_inverse (s : SiteEvent) : Bool := s.is_inverse_

def SiteEvent.sorted_index (s : SiteEvent) : Nat := s.sorted_index_

/-- Modelled from the spec: `SiteEvent::inverse` swaps the two stored
endpoints and toggles the `is_inverse` flag (spec §3: "segments are
represented twice during construction with swapped endpoints"; behaviour
fixed by `inverse_test_2` in `src/src/voronoi_siteevent/tests.rs`). -/
def SiteEvent.inverse (s : SiteEvent) : SiteEvent :=
  { s with
    point0_ := s.point1_
    point1_ := s.point0_
    is_inverse_ := !s.is_inverse_ }

/-- Source `VoronoiPredicates::is_vertical_2`. -/
def is_vertical_2 (point1 point2 : Point) : Bool :=
  point1.x == point2.x

/-- Source `VoronoiPredicates::is_vertical_1`. -/
def is_vertical_1 (site : SiteEvent) : Bool :=
  is_vertical_2 site.point0 site.point1

/-- Source `ULPS` constant of `voronoi_predicate.rs` (threshold for 32-bit floats). -/
def ULPS : Nat := 64

/-- Source `ULPSX2` constant of `voronoi_predicate.rs` (threshold for 64-bit floats). -/
def ULPSX2 : Nat := 128

/-- Source `VoronoiPredicates::ulps()`: the crate instantiates `F2 = f64`
(`size_of > 4`), so the threshold is `ULPSX2`. -/
def ulps : Nat := ULPSX2

/-- Source `robust_cross_product_f<T, U>`: computes `a1 * b2 - b1 * a2` from the
absolute values `l = |a1|*|b2|`, `r = |b1|*|a2|` and the operand signs.
The Rust code finally casts the (non-negative) magnitude to the float
type `U`, possibly negated; the cast preserves the sign, and the
embedding returns the signed integer that is cast. -/
def robust_cross_product_f (a1_ b1_ a2_ b2_ : Int) : Int :=
  let a1 : Int := if a1_ < 0 then -a1_ else a1_
  let b1 : Int := if b1_ < 0 then -b1_ else b1_
  let a2 : Int := if a2_ < 0 then -a2_ else a2_
  let b2 : Int := if b2_ < 0 then -b2_ else b2_
  let l : Int := a1 * b2
  let r : Int := b1 * a2
  if (a1_ < 0 ∧ ¬b2_ < 0) ∨ (¬a1_ < 0 ∧ b2_ < 0) then
    if (a2_ < 0 ∧ ¬b1_ < 0) ∨ (¬a2_ < 0 ∧ b1_ < 0) then
      if l > r then -(l - r) else r - l
    else
      -(l + r)
  else if (a2_ < 0 ∧ ¬b1_ < 0) ∨ (¬a2_ < 0 ∧ b1_ < 0) then
    l + r
  else if l < r then -(r - l) else l - r

/-- Source `VoronoiPredicates::robust_cross_product_2i` simply forwards to
`robust_cross_product_f` on the widened integer type. -/
def robust_cross_product_2i (a1 b1 a2 b2 : Int) : Int :=
  robust_cross_product_f a1 b1 a2 b2

/-- The `Orientation` enum of `voronoi_predicate.rs`. -/
inductive Orientation where
  | RIGHT
  | COLLINEAR
  | LEFT
deriving DecidableEq, Repr

/-- Source `OrientationTest::eval_bf`: orientation from the sign of a
determinant value (the float's `is_zero` / `is_sign_negative` tests are
the sign tests on the exactly-signed embedded integer). -/
def OrientationTest.eval_bf (value : Int) : Orientation :=
  if value = 0 then Orientation.COLLINEAR
  else if value < 0 then Orientation.RIGHT
  else Orientation.LEFT

/-- Source `OrientationTest::eval_3`. -/
def OrientationTest.eval_3 (point1 point2 point3 : Point) : Orientation :=
  let dx1 : Int := point1.x - point2.x
  let dx2 : Int := point2.x - point3.x
  let dy1 : Int := point1.y - point2.y
  let dy2 : Int := point2.y - point3.y
  OrientationTest.eval_bf (robust_cross_product_2i dx1 dy1 dx2 dy2)

/-- Source `OrientationTest::eval_4`. -/
def OrientationTest.eval_4 (dif_x1_ dif_y1_ dif_x2_ dif_y2_ : Int) : Orientation :=
  OrientationTest.eval_bf (robust_cross_product_2i dif_x1_ dif_y1_ dif_x2_ dif_y2_)

/-- Source `PointComparisonPredicate::point_comparison_predicate`: strict
lexicographic point order, x before y. -/
def PointComparisonPredicate.point_comparison_predicate (lhs rhs : Point) : Bool :=
  if lhs.x = rhs.x then decide (lhs.y < rhs.y) else decide (lhs.x < rhs.x)

/-- Source `EndPointPair<I>` from `end_point.rs` (`BeachLineIndex` embedded as `Nat`). -/
structure EndPointPair where
  site : Point
  beachline_index : Nat
deriving DecidableEq, Repr

/-- The `Ord for EndPointPair` implementation of `end_point.rs`. -/
def EndPointPair.cmp (a b : EndPointPair) : Ordering :=
  if PointComparisonPredicate.point_comparison_predicate a.site b.site then
    Ordering.gt
  else if a.site = b.site then Ordering.eq
  else Ordering.lt

/-- Source `EventComparisonPredicate::event_comparison_predicate_bii`. -/
def event_comparison_predicate_bii (lhs rhs : SiteEvent) : Bool :=
  if lhs.x0 ≠ rhs.x0 then decide (lhs.x0 < rhs.x0)
  else if !lhs.is_segment then
    if !rhs.is_segment then decide (lhs.y0 < rhs.y0)
    else if is_vertical_2 rhs.point0_ rhs.point1_ then decide (lhs.y0 ≤ rhs.y0)
    else true
  else
    if is_vertical_2 rhs.point0_ rhs.point1_ then
      if is_vertical_2 lhs.point0_ lhs.point1_ then decide (lhs.y0 < rhs.y0)
      else false
    else if is_vertical_2 lhs.point0_ lhs.point1_ then true
    else if lhs.y0 ≠ rhs.y0 then decide (lhs.y0 < rhs.y0)
    else decide (OrientationTest.eval_3 lhs.point1 lhs.point0 rhs.point1 = Orientation.LEFT)

/-- Source `EventComparisonPredicate::event_comparison_predicate_ii`. -/
def event_comparison_predicate_ii (lhs rhs : SiteEvent) : Ordering :=
  if event_comparison_predicate_bii lhs rhs then Ordering.lt else Ordering.gt

/-- Source `CircleEvent<F2>`.  Modelled from the spec: the `voronoi_circleevent`
module is not among the provided sources; spec §3 gives center `(cx, cy)`
and `lower_x = cx + r` (the `active` flag and back-reference are not needed
by any claim).  `F2` (f64) is embedded as `Rat`. -/
structure CircleEvent where
  x_ : Rat
  y_ : Rat
  lower_x_ : Rat
deriving DecidableEq, Repr

def CircleEvent.x (c : CircleEvent) : Rat := c.x_

def CircleEvent.y (c : CircleEvent) : Rat := c.y_

def CircleEvent.lower_x (c : CircleEvent) : Rat := c.lower_x_

def CircleEvent.set_x_raw (c : CircleEvent) (v : Rat) : CircleEvent := { c with x_ := v }

def CircleEvent.set_y_raw (c : CircleEvent) (v : Rat) : CircleEvent := { c with y_ := v }

def CircleEvent.set_lower_x_raw (c : CircleEvent) (v : Rat) : CircleEvent :=
  { c with lower_x_ := v }

def CircleEvent.set_3_raw (_c : CircleEvent) (x y lower_x : Rat) : CircleEvent :=
  ⟨x, y, lower_x⟩

/-- Source `EventComparisonPredicate::event_comparison_predicate_bif`.  The f64
ULP comparison `UlpComparison::ulp_comparison` lives in `voronoi_ctypes`,
which is not among the provided sources and is float-bit-level; it is
taken as the parameter `ulpCmp`, applied exactly as the source applies it:
to `lhs.x0` cast to float, the circle's `lower_x`, and `ulps()`. -/
def event_comparison_predicate_bif (ulpCmp : Rat → Rat → Nat → Ordering)
    (lhs : SiteEvent) (rhs : CircleEvent) : Bool :=
  decide (ulpCmp (lhs.x0 : Rat) rhs.lower_x ulps = Ordering.lt)

/-- Source `EventComparisonPredicate::event_comparison_predicate_if`. -/
def event_comparison_predicate_if (ulpCmp : Rat → Rat → Nat → Ordering)
    (lhs : SiteEvent) (rhs : CircleEvent) : Ordering :=
  if event_comparison_predicate_bif ulpCmp lhs rhs then Ordering.lt else Ordering.gt

/-- Source `DistancePredicate::pp`.  The two `find_distance_to_point_arc` calls in
the fall-through branches return float (`F2`) values computed with tracked
relative error; the embedding takes that distance computation as the
parameter `fdpa`, so theorems about the integer branches hold for every
possible behaviour of the float path. -/
def DistancePredicate.pp (fdpa : SiteEvent → Point → Rat)
    (left_site right_site : SiteEvent) (new_point : Point) : Bool :=
  let left_point := left_site.point0
  let right_point := right_site.point0
  if left_point.x > right_point.x then
    if new_point.y ≤ left_point.y then false
    else decide (fdpa left_site new_point < fdpa right_site new_point)
  else if left_point.x < right_point.x then
    if new_point.y ≥ right_point.y then true
    else decide (fdpa left_site new_point < fdpa right_site new_point)
  else decide (left_point.y + right_point.y < new_point.y * 2)

/-- Source `CircleExistencePredicate::ppp`. -/
def CircleExistencePredicate.ppp (site1 site2 site3 : SiteEvent) : Bool :=
  decide (OrientationTest.eval_3 site1.point0 site2.point0 site3.point0 =
    Orientation.RIGHT)

/-- Source `CircleExistencePredicate::pps`. -/
def CircleExistencePredicate.pps (site1 site2 site3 : SiteEvent)
    (segment_index : Nat) : Bool :=
  if segment_index ≠ 2 then
    let orient1 := OrientationTest.eval_3 site1.point0 site2.point0 site3.point0
    let orient2 := OrientationTest.eval_3 site1.point0 site2.point0 site3.point1
    if segment_index = 1 ∧ site1.x0 ≥ site2.x0 then
      if orient1 ≠ Orientation.RIGHT then false else true
    else if segment_index = 3 ∧ site2.x0 ≥ site1.x0 then
      if orient2 ≠ Orientation.RIGHT then false else true
    else if orient1 ≠ Orientation.RIGHT ∧ orient2 ≠ Orientation.RIGHT then false
    else true
  else
    decide (site3.point0 ≠ site1.point0 ∨ site3.point1 ≠ site2.point0)

/-- Source `CircleExistencePredicate::pss` (`point_index` is `i32` in the source). -/
def CircleExistencePredicate.pss (site1 site2 site3 : SiteEvent)
    (point_index : Int) : Bool :=
  if site2.sorted_index = site3.sorted_index then false
  else if point_index = 2 then
    if !site2.is_inverse && site3.is_inverse then false
    else if site2.is_inverse == site3.is_inverse &&
        decide (OrientationTest.eval_3 site2.point0 site1.point0 site3.point1 ≠
          Orientation.RIGHT) then false
    else true
  else true

/-- Source `CircleExistencePredicate::sss`. -/
def CircleExistencePredicate.sss (site1 site2 site3 : SiteEvent) : Bool :=
  decide (site1.sorted_index ≠ site2.sorted_index ∧
    site2.sorted_index ≠ site3.sorted_index)

/-- Source `CircleFormationFunctor::lies_outside_vertical_segment`.  The f64 ULP
comparison is the parameter `ulpCmp`, applied exactly as in the source:
with tolerance 128 against both endpoint ordinates, oriented by
`is_inverse`. -/
def lies_outside_vertical_segment (ulpCmp : Rat → Rat → Nat → Ordering)
    (c : CircleEvent) (s : SiteEvent) : Bool :=
  if !s.is_segment || !is_vertical_1 s then false
  else
    let y0 : Rat := ((if s.is_inverse then s.y1 else s.y0 : Int) : Rat)
    let y1 : Rat := ((if s.is_inverse then s.y0 else s.y1 : Int) : Rat)
    let cc_y : Rat := c.y
    decide (ulpCmp cc_y y0 128 = Ordering.lt) ||
      decide (ulpCmp cc_y y1 128 = Ordering.gt)

/-- The site-type dispatch of `CircleFormationFunctor::circle_formation_predicate`:
runs the matching `CircleExistencePredicate`, and on success the matching
lazy formation (the early `return false` paths become `none`).  The four
lazy formation functors compute with `RobustFpt`/`RobustDif` floats and are
taken as parameters `lppp`/`lpps`/`lpss`/`lsss`, each receiving exactly the
arguments the source passes. -/
def circle_formation_dispatch
    (lppp : SiteEvent → SiteEvent → SiteEvent → CircleEvent → CircleEvent)
    (lpps : SiteEvent → SiteEvent → SiteEvent → Nat → CircleEvent → CircleEvent)
    (lpss : SiteEvent → SiteEvent → SiteEvent → Int → CircleEvent → CircleEvent)
    (lsss : SiteEvent → SiteEvent → SiteEvent → CircleEvent → CircleEvent)
    (site1 site2 site3 : SiteEvent) (circle : CircleEvent) : Option CircleEvent :=
  if !site1.is_segment then
    if !site2.is_segment then
      if !site3.is_segment then
        if !(CircleExistencePredicate.ppp site1 site2 site3) then none
        else some (lppp site1 site2 site3 circle)
      else
        if !(CircleExistencePredicate.pps site1 site2 site3 3) then none
        else some (lpps site1 site2 site3 3 circle)
    else if !site3.is_segment then
      if !(CircleExistencePredicate.pps site1 site3 site2 2) then none
      else some (lpps site1 site3 site2 2 circle)
    else
      if !(CircleExistencePredicate.pss site1 site2 site3 1) then none
      else some (lpss site1 site2 site3 1 circle)
  else if !site2.is_segment then
    if !site3.is_segment then
      if !(CircleExistencePredicate.pps site2 site3 site1 1) then none
      else some (lpps site2 site3 site1 1 circle)
    else
      if !(CircleExistencePredicate.pss site2 site1 site3 2) then none
      else some (lpss site2 site1 site3 2 circle)
  else if !site3.is_segment then
    if !(CircleExistencePredicate.pss site3 site1 site2 3) then none
    else some (lpss site3 site1 site2 3 circle)
  else
    if !(CircleExistencePredicate.sss site1 site2 site3) then none
    else some (lsss site1 site2 site3 circle)

/-- Source `CircleFormationFunctor::circle_formation_predicate`: dispatch plus the
final vertical-segment filter; returns the boolean result together with the
circle state (the source mutates `circle` in place). -/
def circle_formation_predicate (ulpCmp : Rat → Rat → Nat → Ordering)
    (lppp : SiteEvent → SiteEvent → SiteEvent → CircleEvent → CircleEvent)
    (lpps : SiteEvent → SiteEvent → SiteEvent → Nat → CircleEvent → CircleEvent)
    (lpss : SiteEvent → SiteEvent → SiteEvent → Int → CircleEvent → CircleEvent)
    (lsss : SiteEvent → SiteEvent → SiteEvent → CircleEvent → CircleEvent)
    (site1 site2 site3 : SiteEvent) (circle : CircleEvent) : Bool × CircleEvent :=
  match circle_formation_dispatch lppp lpps lpss lsss site1 site2 site3 circle with
  | none => (false, circle)
  | some c =>
      if lies_outside_vertical_segment ulpCmp c site1 ||
          lies_outside_vertical_segment ulpCmp c site2 ||
          lies_outside_vertical_segment ulpCmp c site3 then (false, c)
      else (true, c)

/-- Source `ExactCircleFormationFunctor::ppp`.  `I2` is embedded as `Int`; `F2` as
`Rat` with the float square root taken as the parameter `sqrtF` (it only
feeds the `lower_x` value).  The `dif`/`sum` arrays of the source become
suffixed variables. -/
def ExactCircleFormationFunctor.ppp (sqrtF : Rat → Rat)
    (site1 site2 site3 : SiteEvent) (circle : CircleEvent)
    (recompute_c_x recompute_c_y recompute_lower_x : Bool) : CircleEvent :=
  let dif_x0 : Int := site1.x - site2.x
  let dif_x1 : Int := site2.x - site3.x
  let dif_x2 : Int := site1.x - site3.x
  let dif_y0 : Int := site1.y - site2.y
  let dif_y1 : Int := site2.y - site3.y
  let dif_y2 : Int := site1.y - site3.y
  let sum_x0 : Int := site1.x + site2.x
  let sum_x1 : Int := site2.x + site3.x
  let sum_y0 : Int := site1.y + site2.y
  let sum_y1 : Int := site2.y + site3.y
  let inv_denom : Rat := (1 / 2 : Rat) / ((dif_x0 * dif_y1 - dif_x1 * dif_y0 : Int) : Rat)
  let numer1 : Int := dif_x0 * sum_x0 + dif_y0 * sum_y0
  let numer2 : Int := dif_x1 * sum_x1 + dif_y1 * sum_y1
  let circle :=
    if recompute_c_x || recompute_lower_x then
      let c_x : Int := numer1 * dif_y1 - numer2 * dif_y0
      let circle := circle.set_x_raw ((c_x : Rat) * inv_denom)
      if recompute_lower_x then
        let sqr_r : Int := (dif_x0 * dif_x0 + dif_y0 * dif_y0) *
          (dif_x1 * dif_x1 + dif_y1 * dif_y1) *
          (dif_x2 * dif_x2 + dif_y2 * dif_y2)
        let r : Rat := sqrtF ((sqr_r : Int) : Rat)
        let tmp_circle_x : Rat := circle.x
        if ¬tmp_circle_x < 0 then
          if ¬inv_denom < 0 then
            circle.set_lower_x_raw (tmp_circle_x + r * inv_denom)
          else
            circle.set_lower_x_raw (tmp_circle_x - r * inv_denom)
        else
          let numer : Int := c_x * c_x - sqr_r
          let lower_x : Rat := (numer : Rat) * inv_denom / ((c_x : Rat) + r)
          circle.set_lower_x_raw lower_x
      else circle
    else circle
  if recompute_c_y then
    circle.set_y_raw (((numer2 * dif_x0 - numer1 * dif_x1 : Int) : Rat) * inv_denom)
  else circle

/-! ## Theorems -/

lemma robust_cross_product_f_eq (a1 b1 a2 b2 : Int) :
    robust_cross_product_f a1 b1 a2 b2 = a1 * b2 - b1 * a2 := by
  by_cases h1 : a1 < 0 <;> by_cases h2 : b1 < 0 <;>
    by_cases h3 : a2 < 0 <;> by_cases h4 : b2 < 0 <;>
      simp only [robust_cross_product_f, h1, h2, h3, h4, if_true, if_false,
        not_true, not_false_iff, true_and, false_and, and_true, and_false,
        true_or, or_true, false_or, or_false, ite_true, ite_false] <;>
      (try split_ifs) <;> ring

lemma eval_bf_sign (v : Int) :
    OrientationTest.eval_bf v =
      (if v < 0 then Orientation.RIGHT
       else if v = 0 then Orientation.COLLINEAR
       else Orientation.LEFT) := by
  unfold OrientationTest.eval_bf
  split_ifs <;> first | rfl | omega

lemma eval_4_eq (dx1 dy1 dx2 dy2 : Int) :
    OrientationTest.eval_4 dx1 dy1 dx2 dy2 =
      OrientationTest.eval_bf (dx1 * dy2 - dy1 * dx2) := by
  unfold OrientationTest.eval_4 robust_cross_product_2i
  rw [robust_cross_product_f_eq]

lemma eval_3_eq (p q r : Point) :
    OrientationTest.eval_3 p q r =
      OrientationTest.eval_bf
        ((q.x - p.x) * (r.y - q.y) - (q.y - p.y) * (r.x - q.x)) := by
  unfold OrientationTest.eval_3 robust_cross_product_2i
  simp only [robust_cross_product_f_eq]
  congr 1
  ring

/-- Claim C1: `robust_cross_product_f` computes exactly the integer
determinant `a1*b2 - b1*a2` (so in particular the value it returns has
exactly the sign — positive, negative or zero — of the exact determinant),
and `OrientationTest::eval_4` and `eval_3` built on it return RIGHT,
COLLINEAR or LEFT exactly according to the sign of the exact determinant
`(qx-px)(ry-qy) - (qy-py)(rx-qx)`. -/
theorem robust_cross_product_exact_sign
    (a1 b1 a2 b2 dx1 dy1 dx2 dy2 : Int) (p q r : Point) :
    robust_cross_product_f a1 b1 a2 b2 = a1 * b2 - b1 * a2 ∧
    OrientationTest.eval_4 dx1 dy1 dx2 dy2 =
      (if dx1 * dy2 - dy1 * dx2 < 0 then Orientation.RIGHT
       else if dx1 * dy2 - dy1 * dx2 = 0 then Orientation.COLLINEAR
       else Orientation.LEFT) ∧
    OrientationTest.eval_3 p q r =
      (if (q.x - p.x) * (r.y - q.y) - (q.y - p.y) * (r.x - q.x) < 0 then
        Orientation.RIGHT
       else if (q.x - p.x) * (r.y - q.y) - (q.y - p.y) * (r.x - q.x) = 0 then
        Orientation.COLLINEAR
       else Orientation.LEFT) := by
  refine ⟨robust_cross_product_f_eq a1 b1 a2 b2, ?_, ?_⟩
  · rw [eval_4_eq, eval_bf_sign]
  · rw [eval_3_eq, eval_bf_sign]

lemma point_comparison_irrefl (p : Point) :
    PointComparisonPredicate.point_comparison_predicate p p = false := by
  simp [PointComparisonPredicate.point_comparison_predicate]

/-- Claim C8: `Ord for EndPointPair` depends only on the `site` field and
is the exact reverse of the point order: `cmp a b` is `Greater` iff
`a.site` strictly precedes `b.site` under the (x, then y) point order,
`Equal` iff the sites are equal, and `Less` otherwise. -/
theorem end_point_pair_cmp_reverse_point_order (a b : EndPointPair) :
    (EndPointPair.cmp a b = Ordering.gt ↔
      PointComparisonPredicate.point_comparison_predicate a.site b.site = true) ∧
    (EndPointPair.cmp a b = Ordering.eq ↔ a.site = b.site) ∧
    (EndPointPair.cmp a b = Ordering.lt ↔
      (PointComparisonPredicate.point_comparison_predicate a.site b.site = false ∧
        a.site ≠ b.site)) ∧
    (∀ i j : Nat, EndPointPair.cmp ⟨a.site, i⟩ ⟨b.site, j⟩ = EndPointPair.cmp a b) := by
  refine ⟨?_, ?_, ?_, fun i j => rfl⟩ <;>
    · unfold EndPointPair.cmp
      split_ifs with h1 h2 <;> simp_all <;>
        · intro he
          rw [he, point_comparison_irrefl] at h1
          exact absurd h1 (by simp)

/-- Claim C2 counterexample: with `point_index = 1` the two segment sites
being co-inverse with orientation of `(m.p0, l.p0, r.p1)` not RIGHT does
not make `CircleExistencePredicate::pss` return `false`: the orientation
check is only run when `point_index == 2`. -/
theorem pss_point_index_one_counterexample :
    let l : SiteEvent := ⟨⟨1, 0⟩, ⟨1, 0⟩, 0, false, false⟩
    let m : SiteEvent := ⟨⟨0, 0⟩, ⟨3, 4⟩, 1, true, false⟩
    let r : SiteEvent := ⟨⟨5, 5⟩, ⟨2, 0⟩, 2, true, false⟩
    m.sorted_index ≠ r.sorted_index ∧
    m.is_inverse = r.is_inverse ∧
    OrientationTest.eval_3 m.point0 l.point0 r.point1 ≠ Orientation.RIGHT ∧
    CircleExistencePredicate.pss l m r 1 = true := by
  decide

/-- Claim C2 (amended): with `point_index = 1`,
`CircleExistencePredicate::pss` returns `false` exactly when the two
segment sites share `sorted_index`; the co-inverse / orientation test is
applied only in the `point_index == 2` branch. -/
theorem pss_point_index_one_sorted_index_only (site1 site2 site3 : SiteEvent) :
    CircleExistencePredicate.pss site1 site2 site3 1 =
      decide (site2.sorted_index ≠ site3.sorted_index) := by
  unfold CircleExistencePredicate.pss
  have h12 : ¬(1 : Int) = 2 := by norm_num
  split_ifs with h1 <;> simp_all

/-- Claim C6: in the point-point distance predicate, when the two point
sites have equal x coordinate, the result is the pure widened-integer
inequality `left.y + right.y < 2 * K.y`, independently of the
floating-point distance computation of the other branches. -/
theorem pp_equal_x_integer_branch (fdpa : SiteEvent → Point → Rat)
    (left_site right_site : SiteEvent) (new_point : Point)
    (hx : left_site.point0.x = right_site.point0.x) :
    DistancePredicate.pp fdpa left_site right_site new_point =
      decide (left_site.point0.y + right_site.point0.y < 2 * new_point.y) := by
  unfold DistancePredicate.pp
  simp [hx, lt_self_iff_false, decide_eq_decide]
  omega

/-- Claim C6 witness: the equal-x integer branch at point sites `(0,1)`,
`(0,2)` and test point `(0,9)`, with an arbitrary distance oracle. -/
theorem pp_equal_x_integer_branch_witness :
    DistancePredicate.pp (fun _ _ => 0) ⟨⟨0, 1⟩, ⟨0, 1⟩, 0, false, false⟩
        ⟨⟨0, 2⟩, ⟨0, 2⟩, 1, false, false⟩ ⟨0, 9⟩ =
      decide ((1 : Int) + 2 < 2 * 9) :=
  pp_equal_x_integer_branch (fun _ _ => 0) ⟨⟨0, 1⟩, ⟨0, 1⟩, 0, false, false⟩
    ⟨⟨0, 2⟩, ⟨0, 2⟩, 1, false, false⟩ ⟨0, 9⟩ rfl

/-- Claim C10: `SiteEvent::inverse` toggles `is_inverse` from `false` to
`true`, swaps the values reported by the accessors `x0/y0/x1/y1`, and a
second call restores the original observable state exactly. -/
theorem site_event_inverse_involution (s : SiteEvent) (h : s.is_inverse_ = false) :
    s.inverse.is_inverse = true ∧
    s.inverse.x0 = s.x1 ∧ s.inverse.y0 = s.y1 ∧
    s.inverse.x1 = s.x0 ∧ s.inverse.y1 = s.y0 ∧
    s.inverse.inverse = s := by
  rcases s with ⟨p0, p1, si, sg, iv⟩
  simp only at h
  subst h
  simp [SiteEvent.inverse, SiteEvent.is_inverse, SiteEvent.x0, SiteEvent.y0,
    SiteEvent.x1, SiteEvent.y1]

/-- Claim C10 witness: the segment site of `inverse_test_2`,
`(10,11) → (12,13)` with `sorted_index 1`. -/
theorem site_event_inverse_involution_witness :
    (SiteEvent.inverse ⟨⟨10, 11⟩, ⟨12, 13⟩, 1, true, false⟩).is_inverse = true ∧
    (SiteEvent.inverse ⟨⟨10, 11⟩, ⟨12, 13⟩, 1, true, false⟩).x0 =
      SiteEvent.x1 ⟨⟨10, 11⟩, ⟨12, 13⟩, 1, true, false⟩ ∧
    (SiteEvent.inverse ⟨⟨10, 11⟩, ⟨12, 13⟩, 1, true, false⟩).y0 =
      SiteEvent.y1 ⟨⟨10, 11⟩, ⟨12, 13⟩, 1, true, false⟩ ∧
    (SiteEvent.inverse ⟨⟨10, 11⟩, ⟨12, 13⟩, 1, true, false⟩).x1 =
      SiteEvent.x0 ⟨⟨10, 11⟩, ⟨12, 13⟩, 1, true, false⟩ ∧
    (SiteEvent.inverse ⟨⟨10, 11⟩, ⟨12, 13⟩, 1, true, false⟩).y1 =
      SiteEvent.y0 ⟨⟨10, 11⟩, ⟨12, 13⟩, 1, true, false⟩ ∧
    (SiteEvent.inverse ⟨⟨10, 11⟩, ⟨12, 13⟩, 1, true, false⟩).inverse =
      ⟨⟨10, 11⟩, ⟨12, 13⟩, 1, true, false⟩ :=
  site_event_inverse_involution ⟨⟨10, 11⟩, ⟨12, 13⟩, 1, true, false⟩ rfl

/-- Claim C4 counterexample: at equal x0, a point site does NOT always
order before a vertical segment that starts at a different point: with the
point `(0,5)` and the vertical segment `(0,0)→(0,10)`,
`event_comparison_predicate_bii(point, segment)` is `false`, i.e. the
segment orders first, although the segment does not start at the point
site's position. -/
theorem bii_point_vs_vertical_segment_counterexample :
    SiteEvent.is_segment ⟨⟨0, 5⟩, ⟨0, 5⟩, 0, false, false⟩ = false ∧
    SiteEvent.is_segment ⟨⟨0, 0⟩, ⟨0, 10⟩, 1, true, false⟩ = true ∧
    SiteEvent.x0 ⟨⟨0, 5⟩, ⟨0, 5⟩, 0, false, false⟩ =
      SiteEvent.x0 ⟨⟨0, 0⟩, ⟨0, 10⟩, 1, true, false⟩ ∧
    is_vertical_1 ⟨⟨0, 0⟩, ⟨0, 10⟩, 1, true, false⟩ = true ∧
    SiteEvent.point0 ⟨⟨0, 0⟩, ⟨0, 10⟩, 1, true, false⟩ ≠
      SiteEvent.point0 ⟨⟨0, 5⟩, ⟨0, 5⟩, 0, false, false⟩ ∧
    event_comparison_predicate_bii ⟨⟨0, 5⟩, ⟨0, 5⟩, 0, false, false⟩
      ⟨⟨0, 0⟩, ⟨0, 10⟩, 1, true, false⟩ = false := by
  decide

/-- Claim C4 (amended): in the site-vs-site comparison at equal leftmost
x, the point site orders before the segment unconditionally when the
segment is not vertical; when the segment is vertical the tie is decided
by y0 with `<=` (the point orders first iff `point.y0 ≤ segment.y0`, and
symmetrically the segment orders first iff `segment.y0 < point.y0`). -/
theorem bii_point_vs_segment_equal_x (point seg : SiteEvent)
    (hpt : point.is_segment_ = false) (hsg : seg.is_segment_ = true)
    (hx : point.x0 = seg.x0) (hp : point.point0_.x = point.point1_.x) :
    event_comparison_predicate_bii point seg =
      (if seg.point0_.x = seg.point1_.x then decide (point.y0 ≤ seg.y0)
       else true) ∧
    event_comparison_predicate_bii seg point =
      (if seg.point0_.x = seg.point1_.x then decide (seg.y0 < point.y0)
       else false) := by
  rcases point with ⟨⟨px0, py0⟩, ⟨px1, py1⟩, psi, psg, piv⟩
  rcases seg with ⟨⟨sx0, sy0⟩, ⟨sx1, sy1⟩, ssi, ssg, siv⟩
  simp only at hpt hsg
  subst hpt hsg
  simp only [SiteEvent.x0] at hx
  simp only at hp
  subst hx hp
  unfold event_comparison_predicate_bii SiteEvent.is_segment is_vertical_2
    SiteEvent.x0 SiteEvent.y0 SiteEvent.point0 SiteEvent.point1
  constructor
  · simp only [ne_eq, not_true, not_false_iff, ite_true, ite_false, Bool.not_false,
      Bool.not_true, beq_iff_eq]
    split_ifs <;> simp_all
  · simp only [ne_eq, not_true, not_false_iff, ite_true, ite_false, Bool.not_false,
      Bool.not_true, beq_iff_eq]
    split_ifs <;> simp_all

/-- Claim C4 witness: the amended rule at the point `(0,5)` and the
vertical segment `(0,0)→(0,10)`. -/
theorem bii_point_vs_segment_equal_x_witness :
    (event_comparison_predicate_bii ⟨⟨0, 5⟩, ⟨0, 5⟩, 0, false, false⟩
        ⟨⟨0, 0⟩, ⟨0, 10⟩, 1, true, false⟩ =
      (if (Point.mk 0 0).x = (Point.mk 0 10).x then decide ((5 : Int) ≤ 0)
       else true)) ∧
    (event_comparison_predicate_bii ⟨⟨0, 0⟩, ⟨0, 10⟩, 1, true, false⟩
        ⟨⟨0, 5⟩, ⟨0, 5⟩, 0, false, false⟩ =
      (if (Point.mk 0 0).x = (Point.mk 0 10).x then decide ((0 : Int) < 5)
       else false)) :=
  bii_point_vs_segment_equal_x ⟨⟨0, 5⟩, ⟨0, 5⟩, 0, false, false⟩
    ⟨⟨0, 0⟩, ⟨0, 10⟩, 1, true, false⟩ rfl rfl rfl rfl

lemma bii_self (e : SiteEvent) : event_comparison_predicate_bii e e = false := by
  have hdet : (e.point0.x - e.point1.x) * (e.point1.y - e.point0.y) -
      (e.point0.y - e.point1.y) * (e.point1.x - e.point0.x) = 0 := by ring
  unfold event_comparison_predicate_bii
  rw [eval_3_eq, hdet, eval_bf_sign]
  split_ifs <;> simp_all

/-- Claim C9: `event_comparison_predicate_ii` (and likewise
`event_comparison_predicate_if`, for every possible behaviour of the f64
ULP comparison) never returns `Equal`; comparing a site event with itself
yields `Greater`, and two events neither of which orders strictly before
the other compare `Greater` in both directions. -/
theorem event_comparison_never_equal (lhs rhs e a b ls : SiteEvent)
    (ulpCmp : Rat → Rat → Nat → Ordering) (c : CircleEvent) :
    event_comparison_predicate_ii lhs rhs ≠ Ordering.eq ∧
    event_comparison_predicate_if ulpCmp ls c ≠ Ordering.eq ∧
    event_comparison_predicate_ii e e = Ordering.gt ∧
    (event_comparison_predicate_bii a b = false →
      event_comparison_predicate_bii b a = false →
      event_comparison_predicate_ii a b = Ordering.gt ∧
      event_comparison_predicate_ii b a = Ordering.gt) := by
  refine ⟨?_, ?_, ?_, ?_⟩
  · unfold event_comparison_predicate_ii
    split_ifs <;> simp
  · unfold event_comparison_predicate_if
    split_ifs <;> simp
  · unfold event_comparison_predicate_ii
    rw [bii_self]
    simp
  · intro h1 h2
    unfold event_comparison_predicate_ii
    rw [h1, h2]
    simp

/-- Claim C9 witness: a point site compared against itself (neither copy
strictly precedes the other, and both directions yield `Greater`). -/
theorem event_comparison_never_equal_witness :
    event_comparison_predicate_ii ⟨⟨1, 2⟩, ⟨1, 2⟩, 0, false, false⟩
        ⟨⟨1, 2⟩, ⟨1, 2⟩, 0, false, false⟩ = Ordering.gt ∧
    event_comparison_predicate_ii ⟨⟨1, 2⟩, ⟨1, 2⟩, 0, false, false⟩
        ⟨⟨1, 2⟩, ⟨1, 2⟩, 0, false, false⟩ = Ordering.gt :=
  (event_comparison_never_equal ⟨⟨1, 2⟩, ⟨1, 2⟩, 0, false, false⟩
      ⟨⟨1, 2⟩, ⟨1, 2⟩, 0, false, false⟩ ⟨⟨1, 2⟩, ⟨1, 2⟩, 0, false, false⟩
      ⟨⟨1, 2⟩, ⟨1, 2⟩, 0, false, false⟩ ⟨⟨1, 2⟩, ⟨1, 2⟩, 0, false, false⟩
      ⟨⟨1, 2⟩, ⟨1, 2⟩, 0, false, false⟩ (fun _ _ _ => Ordering.lt)
      ⟨0, 0, 0⟩).2.2.2 (by decide) (by decide)

/-- Claim C3 counterexample: when the lazy ppp pass finds only `lower_x`
imprecise (`recompute_c_x = recompute_c_y = false`,
`recompute_lower_x = true`), the exact recomputation does NOT keep the
lazily stored `c_x`: for the point sites `(0,0)`, `(0,2)`, `(2,0)` and a
circle event whose lazily stored x is 5, the exact pass overwrites x with
the exactly recomputed center 1. -/
theorem exact_ppp_overwrites_precise_cx :
    let site1 : SiteEvent := ⟨⟨0, 0⟩, ⟨0, 0⟩, 0, false, false⟩
    let site2 : SiteEvent := ⟨⟨0, 2⟩, ⟨0, 2⟩, 1, false, false⟩
    let site3 : SiteEvent := ⟨⟨2, 0⟩, ⟨2, 0⟩, 2, false, false⟩
    let c0 : CircleEvent := ⟨5, 7, 9⟩
    (ExactCircleFormationFunctor.ppp (fun _ => 0) site1 site2 site3 c0
        false false true).x = 1 ∧
    (ExactCircleFormationFunctor.ppp (fun _ => 0) site1 site2 site3 c0
        false false true).x ≠ c0.x := by
  have h : (ExactCircleFormationFunctor.ppp (fun _ => 0)
      ⟨⟨0, 0⟩, ⟨0, 0⟩, 0, false, false⟩ ⟨⟨0, 2⟩, ⟨0, 2⟩, 1, false, false⟩
      ⟨⟨2, 0⟩, ⟨2, 0⟩, 2, false, false⟩ ⟨5, 7, 9⟩ false false true).x = 1 := by
    unfold ExactCircleFormationFunctor.ppp
    simp only [SiteEvent.x, SiteEvent.y, SiteEvent.x0, SiteEvent.y0,
      CircleEvent.set_x_raw, CircleEvent.set_y_raw, CircleEvent.set_lower_x_raw,
      CircleEvent.x, Bool.or_true, Bool.or_false, ite_true, ite_false]
    norm_num
  exact ⟨h, by rw [h]; norm_num [CircleEvent.x]⟩

/-- Claim C3 (amended): the exact ppp recomputation leaves `cy` untouched
when its flag is unset and leaves `lower_x` untouched when its flag is
unset, but it keeps the lazily stored `cx` only when BOTH the `cx` and the
`lower_x` flags are unset — whenever `lower_x` must be recomputed, `cx` is
recomputed (and overwritten) as well, even if its ulp was within the
threshold. -/
theorem exact_ppp_frame_amended (sqrtF : Rat → Rat)
    (site1 site2 site3 : SiteEvent) (c : CircleEvent)
    (recompute_c_x recompute_c_y recompute_lower_x : Bool) :
    (recompute_c_y = false →
      (ExactCircleFormationFunctor.ppp sqrtF site1 site2 site3 c
        recompute_c_x recompute_c_y recompute_lower_x).y = c.y) ∧
    (recompute_lower_x = false →
      (ExactCircleFormationFunctor.ppp sqrtF site1 site2 site3 c
        recompute_c_x recompute_c_y recompute_lower_x).lower_x = c.lower_x) ∧
    (recompute_c_x = false → recompute_lower_x = false →
      (ExactCircleFormationFunctor.ppp sqrtF site1 site2 site3 c
        recompute_c_x recompute_c_y recompute_lower_x).x = c.x) := by
  cases recompute_c_x <;> cases recompute_c_y <;> cases recompute_lower_x <;>
    refine ⟨fun hy => ?_, fun hl => ?_, fun hx1 hx2 => ?_⟩ <;>
      first
        | exact absurd hy (by decide)
        | exact absurd hl (by decide)
        | exact absurd hx1 (by decide)
        | exact absurd hx2 (by decide)
        | (unfold ExactCircleFormationFunctor.ppp
           simp only [Bool.or_self, Bool.or_true, Bool.true_or, Bool.or_false,
             Bool.false_or, Bool.false_eq_true, eq_self_iff_true, if_true,
             ite_true, if_false, ite_false]
           try first | (split_ifs <;> rfl) | rfl)

/-- Claim C3 witness: with all three recompute flags unset, every
coordinate keeps its lazily stored value. -/
theorem exact_ppp_frame_amended_witness :
    (ExactCircleFormationFunctor.ppp (fun _ => 0)
        ⟨⟨0, 0⟩, ⟨0, 0⟩, 0, false, false⟩ ⟨⟨0, 2⟩, ⟨0, 2⟩, 1, false, false⟩
        ⟨⟨2, 0⟩, ⟨2, 0⟩, 2, false, false⟩ ⟨5, 7, 9⟩ false false false).y =
      CircleEvent.y ⟨5, 7, 9⟩ ∧
    (ExactCircleFormationFunctor.ppp (fun _ => 0)
        ⟨⟨0, 0⟩, ⟨0, 0⟩, 0, false, false⟩ ⟨⟨0, 2⟩, ⟨0, 2⟩, 1, false, false⟩
        ⟨⟨2, 0⟩, ⟨2, 0⟩, 2, false, false⟩ ⟨5, 7, 9⟩ false false false).lower_x =
      CircleEvent.lower_x ⟨5, 7, 9⟩ ∧
    (ExactCircleFormationFunctor.ppp (fun _ => 0)
        ⟨⟨0, 0⟩, ⟨0, 0⟩, 0, false, false⟩ ⟨⟨0, 2⟩, ⟨0, 2⟩, 1, false, false⟩
        ⟨⟨2, 0⟩, ⟨2, 0⟩, 2, false, false⟩ ⟨5, 7, 9⟩ false false false).x =
      CircleEvent.x ⟨5, 7, 9⟩ := by
  obtain ⟨h1, h2, h3⟩ := exact_ppp_frame_amended (fun _ => 0)
    ⟨⟨0, 0⟩, ⟨0, 0⟩, 0, false, false⟩ ⟨⟨0, 2⟩, ⟨0, 2⟩, 1, false, false⟩
    ⟨⟨2, 0⟩, ⟨2, 0⟩, 2, false, false⟩ ⟨5, 7, 9⟩ false false false
  exact ⟨h1 rfl, h2 rfl, h3 rfl rfl⟩

/-- Claim C5: `circle_formation_predicate` returns `false` whenever the
formed circle's y lies outside the vertical extent (oriented by
`is_inverse`, ULP comparison with tolerance 128 on both ends) of any
vertical segment among the three sites; point sites and non-vertical
segments never cause this rejection.  Quantified over every behaviour of
the f64 ULP comparison and of the four lazy formation functors. -/
theorem circle_formation_vertical_filter
    (ulpCmp : Rat → Rat → Nat → Ordering)
    (lppp : SiteEvent → SiteEvent → SiteEvent → CircleEvent → CircleEvent)
    (lpps : SiteEvent → SiteEvent → SiteEvent → Nat → CircleEvent → CircleEvent)
    (lpss : SiteEvent → SiteEvent → SiteEvent → Int → CircleEvent → CircleEvent)
    (lsss : SiteEvent → SiteEvent → SiteEvent → CircleEvent → CircleEvent)
    (site1 site2 site3 : SiteEvent) (circle : CircleEvent) :
    ((lies_outside_vertical_segment ulpCmp
        (circle_formation_predicate ulpCmp lppp lpps lpss lsss
          site1 site2 site3 circle).2 site1 = true ∨
      lies_outside_vertical_segment ulpCmp
        (circle_formation_predicate ulpCmp lppp lpps lpss lsss
          site1 site2 site3 circle).2 site2 = true ∨
      lies_outside_vertical_segment ulpCmp
        (circle_formation_predicate ulpCmp lppp lpps lpss lsss
          site1 site2 site3 circle).2 site3 = true) →
      (circle_formation_predicate ulpCmp lppp lpps lpss lsss
        site1 site2 site3 circle).1 = false) ∧
    (∀ s c', (s.is_segment = false ∨ s.point0_.x ≠ s.point1_.x) →
      lies_outside_vertical_segment ulpCmp c' s = false) ∧
    (∀ s c', s.is_segment = true → s.point0_.x = s.point1_.x →
      lies_outside_vertical_segment ulpCmp c' s =
        (decide (ulpCmp c'.y ((if s.is_inverse then s.y1 else s.y0 : Int) : Rat)
            128 = Ordering.lt) ||
         decide (ulpCmp c'.y ((if s.is_inverse then s.y0 else s.y1 : Int) : Rat)
            128 = Ordering.gt))) := by
  refine ⟨?_, ?_, ?_⟩
  · intro h
    unfold circle_formation_predicate at h ⊢
    rcases hd : circle_formation_dispatch lppp lpps lpss lsss site1 site2 site3 circle
      with _ | cc
    · rfl
    · rw [hd] at h
      dsimp only at h ⊢
      have hsnd : ((if (lies_outside_vertical_segment ulpCmp cc site1 ||
          lies_outside_vertical_segment ulpCmp cc site2 ||
          lies_outside_vertical_segment ulpCmp cc site3) then ((false : Bool), cc)
          else (true, cc)) : Bool × CircleEvent).2 = cc := by
        split_ifs <;> rfl
      rw [hsnd] at h
      have hb : (lies_outside_vertical_segment ulpCmp cc site1 ||
          lies_outside_vertical_segment ulpCmp cc site2 ||
          lies_outside_vertical_segment ulpCmp cc site3) = true := by
        rcases h with h | h | h <;> simp [h]
      rw [hb]
      rfl
  · intro s c' hs
    unfold SiteEvent.is_segment at hs
    unfold lies_outside_vertical_segment SiteEvent.is_segment is_vertical_1
      is_vertical_2 SiteEvent.point0 SiteEvent.point1
    rcases hs with hs | hs <;> simp [hs]
  · intro s c' hseg hvert
    unfold SiteEvent.is_segment at hseg
    unfold lies_outside_vertical_segment SiteEvent.is_segment is_vertical_1
      is_vertical_2 SiteEvent.point0 SiteEvent.point1
    rw [hseg, hvert]
    simp

/-- Claim C5 witness: an sss triple containing the vertical segment
`(0,0)→(0,2)` with circle y = 100 outside its extent; the predicate
rejects the circle. -/
theorem circle_formation_vertical_filter_witness :
    let uW : Rat → Rat → Nat → Ordering := fun a b _ =>
      if a < b then Ordering.lt else if b < a then Ordering.gt else Ordering.eq
    let s1 : SiteEvent := ⟨⟨0, 0⟩, ⟨0, 2⟩, 0, true, false⟩
    let s2 : SiteEvent := ⟨⟨1, 0⟩, ⟨3, 1⟩, 1, true, false⟩
    let s3 : SiteEvent := ⟨⟨5, 0⟩, ⟨6, 4⟩, 2, true, false⟩
    let c : CircleEvent := ⟨0, 100, 0⟩
    lies_outside_vertical_segment uW
      (circle_formation_predicate uW (fun _ _ _ c => c) (fun _ _ _ _ c => c)
        (fun _ _ _ _ c => c) (fun _ _ _ c => c) s1 s2 s3 c).2 s1 = true ∧
    (circle_formation_predicate uW (fun _ _ _ c => c) (fun _ _ _ _ c => c)
      (fun _ _ _ _ c => c) (fun _ _ _ c => c) s1 s2 s3 c).1 = false := by
  refine ⟨by decide, ?_⟩
  exact (circle_formation_vertical_filter _ _ _ _ _ _ _ _ _).1 (Or.inl (by decide))

end Boostvoronoi
